import Mathlib

/-!
Shallow embedding of the kas entry-point module (kas/kas.py): the argument
surface built by kas_get_argparser, the dispatcher kas, the error/exit
translator main, and the event-loop shutdown handler registered at exit.
Plugin behaviour and the error taxonomy live in sibling modules of the
repository and are modelled from the specification where noted.
-/

namespace KasModel

/-- Modelled from the spec: the error taxonomy of kas/kasusererror.py
(not part of the embedded source).  CommandExecError carries a return
code and a forward flag; it is a subclass of KasUserError; otherError
stands for any other Exception-derived error.  SystemExit is not an
Exception and is represented separately in KasOutcome. -/
inductive PyExc where
  | commandExecError (msg : String) (ret_code : Int) (forward : Bool)
  | kasUserError (msg : String)
  | otherError (msg : String)
deriving DecidableEq, Repr

/-- Whether an exception is (a subclass of) KasUserError; CommandExecError is. -/
def PyExc.isKasUserError : PyExc → Bool
  | .commandExecError _ _ _ => true
  | .kasUserError _ => true
  | .otherError _ => false

/-- One command-line token of the top-level grammar built by
kas_get_argparser: the version flag, the help flag, the deprecated
debug flag (store_const of the string debug into dest log_level),
a log-level option together with its value, or a bare word (a
subcommand candidate). -/
inductive Tok where
  | version
  | help
  | debug
  | logLevel (s : String)
  | word (s : String)
deriving DecidableEq, Repr

/-- The choices accepted by the log-level option in kas_get_argparser. -/
def logLevelChoices : List String := ["debug", "info", "warning", "error", "critical"]

/-- The module-level default log level of kas.py. -/
def default_log_level : String := "info"

/-- The parsed-arguments record produced by parse_args for the
top-level parser: the log_level dest (None when neither the debug
flag nor the log-level option was given, since the debug action is
registered first with default None and shadows the later default),
the selected subcommand (dest cmd, None when absent), and the tokens
handed on to the selected plugin's subparser. -/
structure ArgNamespace where
  log_level : Option String
  cmd : Option String
  rest : List Tok
deriving DecidableEq, Repr

/-- A plugin descriptor as consumed by kas.py: a subcommand name, a help
message, and a run operation on the parsed arguments, which either
returns normally (none) or raises an exception (some e). -/
structure Plugin where
  name : String
  helpmsg : String
  run : ArgNamespace → Option PyExc

/-- Lookup of a plugin by name in the registry (registration order). -/
def findPlugin (reg : List Plugin) (n : String) : Option Plugin :=
  reg.find? (fun p => p.name == n)

/-- Modelled from the spec: plugins.get of kas/plugins (not part of the
embedded source) looks a descriptor up by subcommand name and returns
none when the name is absent or no subcommand was given. -/
def pluginsGet (reg : List Plugin) : Option String → Option Plugin
  | none => none
  | some n => findPlugin reg n

/-- The version string of kas_get_argparser, after the argument parser
has substituted the program name for the prog placeholder. -/
def versionString (prog ver fv cv : String) : String :=
  prog ++ " " ++ ver ++ " (configuration format version " ++ fv ++
    ", earliest compatible version " ++ cv ++ ")"

/-- The top-level usage/help text: a deterministic function of the
registry, listing the subcommands in registration order. -/
def topLevelHelp (reg : List Plugin) : String :=
  "usage: kas [-h] [--version] [-d] [-l LEVEL] " ++
    String.intercalate "," (reg.map Plugin.name)

/-- The usage-error text the argument parser prints on malformed input. -/
def usageErrorText : String := "usage: kas error"

/-- Result of parse_args: either the parser terminated the process via
SystemExit with the given code after printing the given text (version,
help, or a usage error), or it produced a parsed-arguments record. -/
inductive ParseResult where
  | exited (code : Int) (output : String)
  | ok (ns : ArgNamespace)
deriving DecidableEq, Repr

/-- Token-by-token behaviour of the top-level parser of
kas_get_argparser.  The accumulator is the current value of the
log_level dest (initially None).  The version and help actions print
and exit 0 when encountered; a log-level value outside the choices is
a usage error (exit 2); the first bare word must be a registered
subcommand (else exit 2, the invalid-choice error) and the remaining
tokens go to that plugin's subparser. -/
def parseTokens (reg : List Plugin) (prog ver fv cv : String) :
    List Tok → Option String → ParseResult
  | [], ll => .ok ⟨ll, none, []⟩
  | .version :: _, _ => .exited 0 (versionString prog ver fv cv)
  | .help :: _, _ => .exited 0 (topLevelHelp reg)
  | .debug :: ts, _ => parseTokens reg prog ver fv cv ts (some "debug")
  | .logLevel s :: ts, _ =>
      if logLevelChoices.contains s then parseTokens reg prog ver fv cv ts (some s)
      else .exited 2 usageErrorText
  | .word w :: ts, ll =>
      if (findPlugin reg w).isSome then .ok ⟨ll, some w, ts⟩
      else .exited 2 usageErrorText

/-- parse_args on the argument vector, with the log_level dest starting
out as None. -/
def parseArgs (reg : List Plugin) (prog ver fv cv : String) (argv : List Tok) :
    ParseResult :=
  parseTokens reg prog ver fv cv argv none

/-- Observable actions of the entry point, in program order: setting the
root logger level, the informational started line, installing the
signal handlers, registering the atexit handler, invoking a plugin's
run operation, printing a string (version, help or usage text), logging
an error, and printing a traceback. -/
inductive Event where
  | setLevel (s : String)
  | logInfoStarted (prog ver : String)
  | addSignalHandlers
  | registerAtexit
  | pluginRun (name : String)
  | printStr (s : String)
  | logError (msg : String)
  | printTrace
deriving DecidableEq, Repr

/-- How the function kas finishes: a normal return, an Exception-derived
error escaping it (from the plugin's run), or a SystemExit raised by the
argument parser (SystemExit is not Exception-derived). -/
inductive KasOutcome where
  | normal
  | exc (e : PyExc)
  | exit (code : Int)
deriving DecidableEq, Repr

/-- The inputs of one invocation: the plugin registry, the program name,
the three version strings, and the argument vector. -/
structure Env where
  reg : List Plugin
  prog : String
  ver : String
  fv : String
  cv : String
  argv : List Tok

/-- The actions kas performs between a successful parse and the dispatch:
the optional level update (only when the log_level dest is truthy),
the started line, the signal handlers, and the atexit registration,
in source order (lines 159-169). -/
def preEvents (env : Env) (ns : ArgNamespace) : List Event :=
  (match ns.log_level with
   | some s => [Event.setLevel s]
   | none => []) ++
  [Event.logInfoStarted env.prog env.ver, Event.addSignalHandlers,
   Event.registerAtexit]

/-- How a plugin run's result surfaces from kas: a normal return stays a
normal return, a raised exception escapes. -/
def outcomeOfRun : Option PyExc → KasOutcome
  | none => .normal
  | some e => .exc e

/-- The dispatcher kas (lines 150-176): parse the arguments (a parser
SystemExit propagates), apply the log level, log the started line,
install signal handlers, register the atexit handler, then either
invoke the resolved plugin's run or print the top-level help. -/
def kasRun (env : Env) : List Event × KasOutcome :=
  match parseArgs env.reg env.prog env.ver env.fv env.cv env.argv with
  | .exited c out => ([Event.printStr out], .exit c)
  | .ok ns =>
    match pluginsGet env.reg ns.cmd with
    | some p =>
        (preEvents env ns ++ [Event.pluginRun p.name], outcomeOfRun (p.run ns))
    | none =>
        (preEvents env ns ++ [Event.printStr (topLevelHelp env.reg)], .normal)

/-- How the process terminates after main: main fell off the end (the
interpreter exits 0), main called sys.exit with a code, or a SystemExit
raised below passed through main's handlers uncaught. -/
inductive Termination where
  | fellThrough
  | sysExit (code : Int)
  | passedThrough (code : Int)
deriving DecidableEq, Repr

/-- The process exit code resulting from a Termination. -/
def exitCodeOf : Termination → Int
  | .fellThrough => 0
  | .sysExit c => c
  | .passedThrough c => c

/-- The wrapper main (lines 179-195): run kas and translate its outcome.
CommandExecError is handled first (log, exit ret_code when forward else
2), then any other KasUserError (log, exit 2), then any other Exception
(log, print the traceback, exit 1).  A SystemExit is not caught by any
of these handlers and passes through unchanged. -/
def mainRun (env : Env) : List Event × Termination :=
  let r := kasRun env
  match r.2 with
  | .normal => (r.1, .fellThrough)
  | .exit c => (r.1, .passedThrough c)
  | .exc (.commandExecError msg rc fwd) =>
      (r.1 ++ [Event.logError msg], .sysExit (if fwd then rc else 2))
  | .exc (.kasUserError msg) =>
      (r.1 ++ [Event.logError msg], .sysExit 2)
  | .exc (.otherError msg) =>
      (r.1 ++ [Event.logError msg, Event.printTrace], .sysExit 1)

/-- The root logger level after replaying a list of events, starting from
the default level that create_logger installs. -/
def levelAfter (evs : List Event) : String :=
  evs.foldl (fun l e => match e with | .setLevel s => s | _ => l)
    default_log_level

/-- Whether an event is an error-logging call. -/
def Event.isLogError : Event → Bool
  | .logError _ => true
  | _ => false

/-- Whether an event is a plugin-run invocation. -/
def Event.isPluginRun : Event → Bool
  | .pluginRun _ => true
  | _ => false

/-! The atexit handler (lines 86-109). -/

/-- A task pending on the event loop: it either completes normally or
fails with the given exception. -/
structure TaskT where
  fails : Option PyExc
deriving DecidableEq, Repr

/-- An event loop with its pending tasks and its closed flag. -/
structure Loop where
  pending : List TaskT
  closed : Bool
deriving DecidableEq, Repr

/-- The environment the handler observes at process exit: whether
asyncio.get_running_loop exists (Python 3.7 and later), what it would
return (none models the RuntimeError raised when no loop is running),
and the loop asyncio.get_event_loop returns on the legacy path. -/
structure AtexitEnv where
  hasGetRunningLoop : Bool
  runningLoop : Option Loop
  eventLoop : Loop
deriving DecidableEq, Repr

/-- The loop (with its pending tasks) the handler obtains, if any: on
Python 3.7 and later the running loop or nothing (RuntimeError), on the
legacy AttributeError path the event loop.  Note that at atexit time no
loop is running on Python 3.7 and later, so there the lookup always
raises and the handler returns without touching the event loop, even
when that loop is open and still holds pending tasks. -/
def activeLoop (env : AtexitEnv) : Option Loop :=
  if env.hasGetRunningLoop then env.runningLoop else some env.eventLoop

/-- run_until_complete of asyncio.gather (return_exceptions false) over
the pending tasks: the tasks are awaited until the first one fails; that
exception completes the gather future at once, so run_until_complete
raises it and any tasks after the failing one are left un-awaited (the
subsequent loop.close abandons them).  Returns how many tasks ran to
completion (the failing one included) and the first failure, if any. -/
def gatherRun : List TaskT → Nat × Option PyExc
  | [] => (0, none)
  | t :: ts =>
      match t.fails with
      | some e => (1, some e)
      | none =>
          let r := gatherRun ts
          (r.1 + 1, r.2)

/-- How the handler finishes: immediate return because no loop is
running, fall-through because the loop was already closed, a drain that
ran (recording how many of the pending tasks were actually awaited and
whether a KasUserError was suppressed) followed by loop.close, or an
unexpected exception escaping the handler before loop.close. -/
inductive AtexitResult where
  | noop
  | skipClosed
  | drained (tasksAwaited : Nat) (suppressedError : Bool)
  | raised (e : PyExc)
deriving DecidableEq, Repr

/-- The function that atexit runs (lines 86-109): obtain the loop and its
pending tasks (returning at once when no loop is running), and if the
loop is not closed, run the gather over the pending tasks; a
KasUserError raised by it is suppressed and the loop is closed, any
other exception escapes before the close. -/
def atexitHandler (env : AtexitEnv) : AtexitResult :=
  match activeLoop env with
  | none => .noop
  | some loop =>
      if loop.closed then .skipClosed
      else
        let r := gatherRun loop.pending
        match r.2 with
        | none => .drained r.1 false
        | some e =>
            if e.isKasUserError then .drained r.1 true
            else .raised e

/-! Spec-side definition, for the refinement statement of C1. -/

/-- Exit-code table as the specification states it (section 4.4 and the
exit-code list of section 6): this definition follows the words of the
spec, to be compared against the behaviour of mainRun. -/
def specExitCode : Option PyExc → Int
  | none => 0
  | some (.commandExecError _ rc fwd) => if fwd then rc else 2
  | some (.kasUserError _) => 2
  | some (.otherError _) => 1

/-! Concrete environments used by witnesses and counterexamples. -/

/-- A plugin whose run operation raises a forwarded command failure. -/
def pluginFwd : Plugin :=
  ⟨"shell", "run a shell", fun _ => some (.commandExecError "command failed" 42 true)⟩

/-- A plugin whose run operation returns normally. -/
def pluginOk : Plugin :=
  ⟨"build", "run a build", fun _ => none⟩

/-- A plugin whose run operation raises a plain user error. -/
def pluginUser : Plugin :=
  ⟨"checkout", "checkout repos", fun _ => some (.kasUserError "bad config")⟩

/-- A plugin whose run operation raises an unexpected internal error. -/
def pluginBoom : Plugin :=
  ⟨"dump", "dump config", fun _ => some (.otherError "key error")⟩

/-- The registry shared by the concrete environments. -/
def regW : List Plugin := [pluginFwd, pluginOk, pluginUser, pluginBoom]

/-- An invocation selecting the forwarding plugin. -/
def envFwd : Env := ⟨regW, "kas", "4.7", "20", "5", [Tok.word "shell"]⟩

/-- An invocation selecting the normally returning plugin. -/
def envOk : Env := ⟨regW, "kas", "4.7", "20", "5", [Tok.word "build"]⟩

/-- An invocation selecting the user-error plugin. -/
def envUser : Env := ⟨regW, "kas", "4.7", "20", "5", [Tok.word "checkout"]⟩

/-- An invocation selecting the internal-error plugin. -/
def envBoom : Env := ⟨regW, "kas", "4.7", "20", "5", [Tok.word "dump"]⟩

/-- An invocation whose argument parsing fails (invalid log-level choice). -/
def envParseFail : Env := ⟨regW, "kas", "4.7", "20", "5", [Tok.logLevel "bogus"]⟩

/-- An invocation with the version flag. -/
def envVersion : Env := ⟨regW, "kas", "4.7", "20", "5", [Tok.version]⟩

/-- An invocation with no subcommand at all. -/
def envNoCmd : Env := ⟨regW, "kas", "4.7", "20", "5", []⟩

/-- An invocation with a debug flag and a subcommand. -/
def envDebug : Env := ⟨regW, "kas", "4.7", "20", "5", [Tok.debug, Tok.word "build"]⟩

/-! Helper lemmas. -/

/-- In a registry with distinct names, lookup by a member's name finds
exactly that member. -/
theorem findPlugin_of_mem (reg : List Plugin) (p : Plugin)
    (hnodup : (reg.map Plugin.name).Nodup) (hmem : p ∈ reg) :
    findPlugin reg p.name = some p := by
  induction reg with
  | nil => cases hmem
  | cons q qs ih =>
    rw [List.map_cons, List.nodup_cons] at hnodup
    rcases List.mem_cons.mp hmem with h | h
    · subst h
      simp [findPlugin, List.find?]
    · have hq : (q.name == p.name) = false := by
        refine beq_eq_false_iff_ne.mpr ?_
        intro he
        exact hnodup.1 (he ▸ List.mem_map_of_mem Plugin.name h)
      have h2 := ih hnodup.2 h
      simp only [findPlugin, List.find?, hq] at h2 ⊢
      exact h2

/-- When no pending task fails, the gather awaits every one of them and
reports no error. -/
theorem gatherRun_all_ok {ts : List TaskT}
    (h : ∀ t, t ∈ ts → t.fails = none) : gatherRun ts = (ts.length, none) := by
  induction ts with
  | nil => rfl
  | cons t ts ih =>
    have ht : t.fails = none := h t (List.mem_cons_self t ts)
    have ih2 := ih (fun u hu => h u (List.mem_cons_of_mem t hu))
    simp [gatherRun, ht, ih2]

/-- The gather never awaits more tasks than were pending. -/
theorem gatherRun_le {ts : List TaskT} : (gatherRun ts).1 ≤ ts.length := by
  induction ts with
  | nil => simp [gatherRun]
  | cons t ts ih =>
    cases hf : t.fails with
    | some e => simp [gatherRun, hf]
    | none =>
        simp only [gatherRun, hf, List.length_cons]
        omega

/-- The dispatcher itself never prints a traceback. -/
theorem kasRun_no_trace (env : Env) : Event.printTrace ∉ (kasRun env).1 := by
  unfold kasRun
  cases h : parseArgs env.reg env.prog env.ver env.fv env.cv env.argv with
  | exited c out => simp
  | ok ns =>
    cases hg : pluginsGet env.reg ns.cmd with
    | some p => cases hll : ns.log_level <;> simp [hg, preEvents, hll]
    | none => cases hll : ns.log_level <;> simp [hg, preEvents, hll]

/-- The dispatcher itself logs no error line. -/
theorem kasRun_no_logError (env : Env) :
    (kasRun env).1.countP Event.isLogError = 0 := by
  unfold kasRun
  cases h : parseArgs env.reg env.prog env.ver env.fv env.cv env.argv with
  | exited c out => simp [Event.isLogError]
  | ok ns =>
    cases hg : pluginsGet env.reg ns.cmd with
    | some p => cases hll : ns.log_level <;> simp [hg, preEvents, hll, Event.isLogError]
    | none => cases hll : ns.log_level <;> simp [hg, preEvents, hll, Event.isLogError]

/-! Claim theorems. -/

/-- C1: for every top-level invocation, the exit code is determined solely
by the outcome of the dispatch, according to the spec's exit-code table: a
normal return exits 0; a CommandExecError with forward set exits with the
carried return code; a CommandExecError without forward, or any other
KasUserError, exits 2; any other unexpected exception exits 1. -/
theorem C1_exit_code_mapping (env : Env) (e : Option PyExc)
    (h : (kasRun env).2 = outcomeOfRun e) :
    exitCodeOf (mainRun env).2 = specExitCode e := by
  cases e with
  | none =>
      simp [outcomeOfRun] at h
      simp [mainRun, h, specExitCode, exitCodeOf]
  | some x =>
      simp [outcomeOfRun] at h
      cases x <;> simp [mainRun, h, specExitCode, exitCodeOf]

/-- Witness for C1: the registered plugin shell raises
CommandExecError with return code 42 and forward set, and the process
exit code is 42, as in the spec's example. -/
theorem C1_exit_code_mapping_witness :
    (kasRun envFwd).2 =
        KasOutcome.exc (.commandExecError "command failed" 42 true) ∧
    exitCodeOf (mainRun envFwd).2 = 42 := by
  have h : (kasRun envFwd).2 =
      outcomeOfRun (some (.commandExecError "command failed" 42 true)) := by
    decide
  have h2 := C1_exit_code_mapping envFwd
    (some (.commandExecError "command failed" 42 true)) h
  exact ⟨h, by simpa [specExitCode] using h2⟩

/-- C6: an invocation whose argument vector starts with the version flag
prints exactly the formatted version string (program name, tool version,
configuration format version, earliest compatible version), terminates
with exit code 0 through the parser's SystemExit, and never invokes any
plugin's run operation. -/
theorem C6_version_flag (env : Env) (ts : List Tok)
    (hargv : env.argv = Tok.version :: ts) :
    mainRun env =
      ([Event.printStr (versionString env.prog env.ver env.fv env.cv)],
        Termination.passedThrough 0) ∧
    exitCodeOf (mainRun env).2 = 0 ∧
    ∀ n, Event.pluginRun n ∉ (mainRun env).1 := by
  have hparse : parseArgs env.reg env.prog env.ver env.fv env.cv env.argv =
      .exited 0 (versionString env.prog env.ver env.fv env.cv) := by
    rw [hargv]
    rfl
  have hmain : mainRun env =
      ([Event.printStr (versionString env.prog env.ver env.fv env.cv)],
        Termination.passedThrough 0) := by
    simp [mainRun, kasRun, hparse]
  refine ⟨hmain, ?_, ?_⟩
  · rw [hmain]
    rfl
  · intro n
    rw [hmain]
    simp

/-- Witness for C6: the concrete invocation with the version flag prints
the version string and passes the parser's SystemExit 0 through. -/
theorem C6_version_flag_witness :
    mainRun envVersion =
      ([Event.printStr (versionString "kas" "4.7" "20" "5")],
        Termination.passedThrough 0) := by
  exact (C6_version_flag envVersion [] rfl).1

/-- C7: an invocation whose parse succeeds with no subcommand prints the
top-level help text, exits 0 (kas returns normally and main falls
through), and never invokes any plugin's run operation. -/
theorem C7_no_subcommand (env : Env) (ns : ArgNamespace)
    (hok : parseArgs env.reg env.prog env.ver env.fv env.cv env.argv = .ok ns)
    (hcmd : ns.cmd = none) :
    mainRun env =
      (preEvents env ns ++ [Event.printStr (topLevelHelp env.reg)],
        Termination.fellThrough) ∧
    exitCodeOf (mainRun env).2 = 0 ∧
    ∀ n, Event.pluginRun n ∉ (mainRun env).1 := by
  have hmain : mainRun env =
      (preEvents env ns ++ [Event.printStr (topLevelHelp env.reg)],
        Termination.fellThrough) := by
    simp [mainRun, kasRun, hok, hcmd, pluginsGet]
  refine ⟨hmain, ?_, ?_⟩
  · rw [hmain]
    rfl
  · intro n
    rw [hmain]
    cases hll : ns.log_level <;> simp [preEvents, hll]

/-- Witness for C7: the concrete invocation with an empty argument vector
falls through with exit code 0 and runs no plugin. -/
theorem C7_no_subcommand_witness :
    exitCodeOf (mainRun envNoCmd).2 = 0 ∧
    ∀ n, Event.pluginRun n ∉ (mainRun envNoCmd).1 := by
  have h := C7_no_subcommand envNoCmd ⟨none, none, []⟩ (by decide) rfl
  exact ⟨h.2.1, h.2.2⟩

/-- C9: a SystemExit raised by the argument parser (malformed input, help,
or version) passes through main's handlers unchanged, because those
handlers catch only Exception-derived errors: the process keeps the
parser's exit code and the translator logs no error and prints no
trace. -/
theorem C9_parser_systemexit_passthrough (env : Env) (c : Int) (out : String)
    (h : parseArgs env.reg env.prog env.ver env.fv env.cv env.argv =
      .exited c out) :
    mainRun env = ([Event.printStr out], Termination.passedThrough c) ∧
    exitCodeOf (mainRun env).2 = c ∧
    (mainRun env).1.countP Event.isLogError = 0 ∧
    Event.printTrace ∉ (mainRun env).1 := by
  have hmain : mainRun env = ([Event.printStr out], Termination.passedThrough c) := by
    simp [mainRun, kasRun, h]
  refine ⟨hmain, ?_, ?_, ?_⟩
  · rw [hmain]
    rfl
  · rw [hmain]
    simp [Event.isLogError]
  · rw [hmain]
    simp

/-- Witness for C9: the concrete invocation with an invalid log-level
choice keeps the parser's exit code 2, with nothing logged by the
translator. -/
theorem C9_parser_systemexit_passthrough_witness :
    mainRun envParseFail =
      ([Event.printStr usageErrorText], Termination.passedThrough 2) ∧
    exitCodeOf (mainRun envParseFail).2 = 2 := by
  have h := C9_parser_systemexit_passthrough envParseFail 2 usageErrorText
    (by decide)
  exact ⟨h.1, h.2.1⟩

/-- C2: with unique subcommand names, invoking with the name of a
registered plugin invokes exactly that plugin's run operation with the
parsed arguments and no other plugin's run (the plugin-run events are
exactly one, naming that plugin, and the outcome is that plugin's run
result); when no plugin resolves, no run is invoked and the help text is
produced instead. -/
theorem C2_unique_dispatch (env : Env)
    (hnodup : (env.reg.map Plugin.name).Nodup) :
    (∀ p ts, p ∈ env.reg → env.argv = Tok.word p.name :: ts →
      (kasRun env).1.filter Event.isPluginRun = [Event.pluginRun p.name] ∧
      (kasRun env).2 = outcomeOfRun (p.run ⟨none, some p.name, ts⟩)) ∧
    (∀ ns, parseArgs env.reg env.prog env.ver env.fv env.cv env.argv = .ok ns →
      pluginsGet env.reg ns.cmd = none →
      (kasRun env).1.filter Event.isPluginRun = [] ∧
      Event.printStr (topLevelHelp env.reg) ∈ (kasRun env).1) := by
  constructor
  · intro p ts hmem hargv
    have hfind := findPlugin_of_mem env.reg p hnodup hmem
    have hparse : parseArgs env.reg env.prog env.ver env.fv env.cv env.argv =
        .ok ⟨none, some p.name, ts⟩ := by
      rw [hargv]
      simp [parseArgs, parseTokens, hfind]
    have hget : pluginsGet env.reg (some p.name) = some p := by
      simp [pluginsGet, hfind]
    constructor
    · simp [kasRun, hparse, hget, preEvents, Event.isPluginRun]
    · simp [kasRun, hparse, hget]
  · intro ns hok hnone
    constructor
    · simp [kasRun, hok, hnone]
      cases hll : ns.log_level <;> simp [preEvents, hll, Event.isPluginRun]
    · simp [kasRun, hok, hnone]

/-- Witness for C2: in the concrete four-plugin registry, invoking with
the subcommand build produces exactly one plugin-run event, for build,
and that plugin's normal return. -/
theorem C2_unique_dispatch_witness :
    (kasRun envOk).1.filter Event.isPluginRun = [Event.pluginRun "build"] ∧
    (kasRun envOk).2 = KasOutcome.normal := by
  have hnodup : (envOk.reg.map Plugin.name).Nodup := by decide
  have h := (C2_unique_dispatch envOk hnodup).1 pluginOk []
    (List.mem_cons_of_mem _ (List.mem_cons_self _ _)) rfl
  exact ⟨h.1, h.2⟩

/-- C4: a diagnostic trace is printed if and only if the dispatch failed
with an internal, non-KasUserError exception; a KasUserError yields exit
code 2 with exactly one logged error line and no trace, while any other
exception yields exit code 1 with the error message logged and a
traceback printed. -/
theorem C4_trace_iff_internal (env : Env) :
    (Event.printTrace ∈ (mainRun env).1 ↔
      ∃ msg, (kasRun env).2 = .exc (.otherError msg)) ∧
    (∀ msg, (kasRun env).2 = .exc (.kasUserError msg) →
      exitCodeOf (mainRun env).2 = 2 ∧
      (mainRun env).1.countP Event.isLogError = 1 ∧
      Event.printTrace ∉ (mainRun env).1) ∧
    (∀ msg, (kasRun env).2 = .exc (.otherError msg) →
      exitCodeOf (mainRun env).2 = 1 ∧
      Event.logError msg ∈ (mainRun env).1 ∧
      Event.printTrace ∈ (mainRun env).1) := by
  have hk := kasRun_no_trace env
  have hl := kasRun_no_logError env
  refine ⟨?_, ?_, ?_⟩
  · cases ho : (kasRun env).2 with
    | normal => simp [mainRun, ho, hk]
    | exc e =>
        cases e with
        | commandExecError msg rc fwd => simp [mainRun, ho, hk]
        | kasUserError msg => simp [mainRun, ho, hk]
        | otherError msg => simp [mainRun, ho]
    | exit c => simp [mainRun, ho, hk]
  · intro msg ho
    refine ⟨by simp [mainRun, ho, exitCodeOf], ?_, ?_⟩
    · simp [mainRun, ho, List.countP_append, hl, Event.isLogError]
    · simp [mainRun, ho, hk]
  · intro msg ho
    refine ⟨by simp [mainRun, ho, exitCodeOf], ?_, ?_⟩
    · simp [mainRun, ho]
    · simp [mainRun, ho]

/-- Witness for C4: the user-error plugin yields exit code 2, one logged
error line and no trace, and the internal-error plugin yields exit code 1
with a trace. -/
theorem C4_trace_iff_internal_witness :
    (exitCodeOf (mainRun envUser).2 = 2 ∧
      (mainRun envUser).1.countP Event.isLogError = 1 ∧
      Event.printTrace ∉ (mainRun envUser).1) ∧
    (exitCodeOf (mainRun envBoom).2 = 1 ∧
      Event.printTrace ∈ (mainRun envBoom).1) := by
  have hu := (C4_trace_iff_internal envUser).2.1 "bad config" (by decide)
  have hb := (C4_trace_iff_internal envBoom).2.2 "key error" (by decide)
  exact ⟨hu, hb.1, hb.2.2⟩

/-- C5 counterexample: for the concrete invocation whose argument parsing
fails (an invalid log-level choice), the dispatch never reaches the
atexit registration, so the shutdown coordinator is not registered and
does not run at process exit, contradicting the claim that it runs for
every invocation regardless of an argument-parse failure. -/
theorem C5_counterexample :
    Event.registerAtexit ∉ (mainRun envParseFail).1 ∧
    (mainRun envParseFail).2 = Termination.passedThrough 2 := by
  decide

/-- C5 (amended): the shutdown coordinator is registered exactly once per
invocation whose argument parsing succeeds, before the plugin dispatch
and regardless of the dispatch outcome (normal return, user error, or
internal error); when argument parsing itself terminates the process,
the coordinator is never registered. -/
theorem C5_atexit_registration (env : Env) :
    (∀ ns, parseArgs env.reg env.prog env.ver env.fv env.cv env.argv = .ok ns →
      (mainRun env).1.count Event.registerAtexit = 1) ∧
    (∀ c out, parseArgs env.reg env.prog env.ver env.fv env.cv env.argv =
        .exited c out →
      Event.registerAtexit ∉ (mainRun env).1) := by
  constructor
  · intro ns hok
    cases hg : pluginsGet env.reg ns.cmd with
    | some p =>
        cases hr : p.run ns with
        | none =>
            simp [mainRun, kasRun, hok, hg, hr, outcomeOfRun]
            cases hll : ns.log_level <;> simp [preEvents, hll]
        | some e =>
            cases e <;>
              simp [mainRun, kasRun, hok, hg, hr, outcomeOfRun] <;>
              cases hll : ns.log_level <;> simp [preEvents, hll]
    | none =>
        simp [mainRun, kasRun, hok, hg]
        cases hll : ns.log_level <;> simp [preEvents, hll]
  · intro c out hex
    simp [mainRun, kasRun, hex]

/-- Witness for C5 (amended): with a successful parse the registration
event occurs exactly once, and with a failed parse it does not occur. -/
theorem C5_atexit_registration_witness :
    (mainRun envOk).1.count Event.registerAtexit = 1 ∧
    Event.registerAtexit ∉ (mainRun envParseFail).1 := by
  refine ⟨(C5_atexit_registration envOk).1 ⟨none, some "build", []⟩ (by decide), ?_⟩
  exact (C5_atexit_registration envParseFail).2 2 usageErrorText (by decide)

/-- C8: for every invocation that reaches a plugin, the log-level update
(when an override is present) happens strictly before the plugin-run
event, and the logger threshold in force at the plugin run is the
override when one was given and the default info otherwise; the
deprecated debug flag stores the string debug into the same log_level
destination. -/
theorem C8_log_level_before_plugin (env : Env) :
    (∀ ns p, parseArgs env.reg env.prog env.ver env.fv env.cv env.argv = .ok ns →
      pluginsGet env.reg ns.cmd = some p →
      (kasRun env).1 = preEvents env ns ++ [Event.pluginRun p.name] ∧
      levelAfter (preEvents env ns) = ns.log_level.getD default_log_level ∧
      ∀ s, ns.log_level = some s → Event.setLevel s ∈ preEvents env ns) ∧
    (∀ reg prog ver fv cv,
      parseArgs reg prog ver fv cv [Tok.debug] = .ok ⟨some "debug", none, []⟩) := by
  constructor
  · intro ns p hok hget
    refine ⟨by simp [kasRun, hok, hget], ?_, ?_⟩
    · cases hll : ns.log_level <;>
        simp [preEvents, hll, levelAfter, default_log_level]
    · intro s hs
      simp [preEvents, hs]
  · intro reg prog ver fv cv
    rfl

/-- Witness for C8: the concrete invocation with the debug flag and the
build subcommand updates the level to debug before the plugin-run event,
and the threshold at the run is debug. -/
theorem C8_log_level_before_plugin_witness :
    (kasRun envDebug).1 =
      preEvents envDebug ⟨some "debug", some "build", []⟩ ++
        [Event.pluginRun "build"] ∧
    levelAfter (preEvents envDebug ⟨some "debug", some "build", []⟩) = "debug" ∧
    Event.setLevel "debug" ∈ preEvents envDebug ⟨some "debug", some "build", []⟩ := by
  have h := (C8_log_level_before_plugin envDebug).1
    ⟨some "debug", some "build", []⟩ pluginOk rfl rfl
  exact ⟨h.1, h.2.1, h.2.2 "debug" rfl⟩

/-- C10: when the selected plugin's run operation returns normally, main
performs no explicit exit call (it falls through, so the process exits
0), logs no error and prints no traceback; the entry point prints
nothing itself and its only logging contribution is the informational
started line with tool name and version. -/
theorem C10_normal_return_frame (env : Env) (ns : ArgNamespace) (p : Plugin)
    (hok : parseArgs env.reg env.prog env.ver env.fv env.cv env.argv = .ok ns)
    (hget : pluginsGet env.reg ns.cmd = some p)
    (hrun : p.run ns = none) :
    mainRun env =
      (preEvents env ns ++ [Event.pluginRun p.name], Termination.fellThrough) ∧
    (mainRun env).1.countP Event.isLogError = 0 ∧
    Event.printTrace ∉ (mainRun env).1 ∧
    (∀ s, Event.printStr s ∉ (mainRun env).1) ∧
    Event.logInfoStarted env.prog env.ver ∈ (mainRun env).1 := by
  have hmain : mainRun env =
      (preEvents env ns ++ [Event.pluginRun p.name], Termination.fellThrough) := by
    simp [mainRun, kasRun, hok, hget, hrun, outcomeOfRun]
  refine ⟨hmain, ?_, ?_, ?_, ?_⟩
  · rw [hmain]
    cases hll : ns.log_level <;> simp [preEvents, hll, Event.isLogError]
  · rw [hmain]
    cases hll : ns.log_level <;> simp [preEvents, hll]
  · intro s
    rw [hmain]
    cases hll : ns.log_level <;> simp [preEvents, hll]
  · rw [hmain]
    cases hll : ns.log_level <;> simp [preEvents, hll]

/-- Witness for C10: the concrete invocation of the normally returning
build plugin falls through with no error logged. -/
theorem C10_normal_return_frame_witness :
    (mainRun envOk).2 = Termination.fellThrough ∧
    (mainRun envOk).1.countP Event.isLogError = 0 ∧
    Event.printTrace ∉ (mainRun envOk).1 := by
  have h := C10_normal_return_frame envOk ⟨none, some "build", []⟩ pluginOk
    (by decide) rfl rfl
  exact ⟨by rw [h.1], h.2.1, h.2.2.1⟩

/-- C3 counterexample: the claim that every task still pending on the
concurrency runtime is awaited to completion at process exit is false at
two explicit inputs.  First, on Python 3.7 and later (get_running_loop
present), no loop is running at atexit time, so the handler returns at
once even though the process's event loop is open and still holds one
pending task: nothing is awaited and the task is abandoned.  Second, on
the legacy path, a pending list whose first task fails with a
KasUserError is drained only up to that failure: of two pending tasks
only one is awaited, and loop.close abandons the other, even though the
failure itself is suppressed. -/
theorem C3_counterexample :
    (atexitHandler ⟨true, none, ⟨[⟨none⟩], false⟩⟩ = .noop ∧
      (⟨true, none, ⟨[⟨none⟩], false⟩⟩ : AtexitEnv).eventLoop.closed = false ∧
      (⟨true, none, ⟨[⟨none⟩], false⟩⟩ : AtexitEnv).eventLoop.pending.length = 1) ∧
    (atexitHandler
        ⟨false, none, ⟨[⟨some (.kasUserError "cancelled")⟩, ⟨none⟩], false⟩⟩ =
      .drained 1 true ∧
      (⟨[⟨some (.kasUserError "cancelled")⟩, ⟨none⟩], false⟩ : Loop).pending.length = 2) := by
  decide

/-- C3 (amended): the shutdown handler is a no-op whenever its loop
lookup finds no running loop (which at atexit also abandons pending
tasks of an open, not-running loop); when it does obtain a loop that is
not yet closed, it awaits the pending tasks only up to the first
failure: with no failing task all pending tasks are awaited to
completion, and a first failure of the KasUserError kind is suppressed
rather than crashing the shutdown path, with at most the pending tasks
awaited. -/
theorem C3_atexit_partial_drain (env : AtexitEnv) :
    (activeLoop env = none → atexitHandler env = .noop) ∧
    (∀ loop, activeLoop env = some loop → loop.closed = false →
      (∀ t, t ∈ loop.pending → t.fails = none) →
      atexitHandler env = .drained loop.pending.length false) ∧
    (∀ loop e, activeLoop env = some loop → loop.closed = false →
      (gatherRun loop.pending).2 = some e → e.isKasUserError = true →
      atexitHandler env = .drained (gatherRun loop.pending).1 true ∧
      (gatherRun loop.pending).1 ≤ loop.pending.length) := by
  refine ⟨?_, ?_, ?_⟩
  · intro ha
    unfold atexitHandler
    rw [ha]
  · intro loop ha hclosed hok
    unfold atexitHandler
    rw [ha]
    simp only [hclosed, Bool.false_eq_true, if_false]
    simp [gatherRun_all_ok hok]
  · intro loop e ha hclosed hg hkas
    constructor
    · unfold atexitHandler
      rw [ha]
      simp only [hclosed, Bool.false_eq_true, if_false]
      simp [hg, hkas]
    · exact gatherRun_le

/-- Witness for C3 (amended): with get_running_loop failing the handler
is a no-op; on the legacy path two completing tasks are both awaited,
and a first task failing with a KasUserError is suppressed with one of
the two tasks awaited. -/
theorem C3_atexit_partial_drain_witness :
    atexitHandler ⟨true, none, ⟨[], false⟩⟩ = .noop ∧
    atexitHandler ⟨false, none, ⟨[⟨none⟩, ⟨none⟩], false⟩⟩ = .drained 2 false ∧
    atexitHandler ⟨false, none, ⟨[⟨some (.kasUserError "fetch cancelled")⟩, ⟨none⟩], false⟩⟩ =
      .drained 1 true := by
  refine ⟨(C3_atexit_partial_drain ⟨true, none, ⟨[], false⟩⟩).1 rfl, ?_, ?_⟩
  · have h := (C3_atexit_partial_drain ⟨false, none, ⟨[⟨none⟩, ⟨none⟩], false⟩⟩).2.1
      ⟨[⟨none⟩, ⟨none⟩], false⟩ rfl rfl (by decide)
    simpa using h
  · have h := (C3_atexit_partial_drain
      ⟨false, none, ⟨[⟨some (.kasUserError "fetch cancelled")⟩, ⟨none⟩], false⟩⟩).2.2
      ⟨[⟨some (.kasUserError "fetch cancelled")⟩, ⟨none⟩], false⟩
      (.kasUserError "fetch cancelled") rfl rfl (by decide) (by decide)
    simpa using h.1

end KasModel
